import Mathlib

/-!
Shallow embedding of the interactive-pdf-qa retrieval pipeline
(`src/config.py`, `src/pdf_processor.py`, `src/llm_client.py`,
`src/main_cli.py`) and proofs about the claims of its specification.

External collaborators (PyPDF2, the llama-index splitter and vector store,
the HTTP transport, the embedding model) are modelled at their interface
boundary: a PDF file is an abstract record of what `PdfReader` observes,
the HTTP transport is a function from requests to outcomes, the embedding
model is a function from text to a vector.
-/

namespace PdfQA

/-! ## Configuration (`src/config.py`)

`config.py` contains only constant assignments; no validation of any
parameter is performed when the module is loaded or during startup
(`run` / `configure_llama_index_settings` in `src/main_cli.py`). -/

def EMBEDDING_MODEL_NAME : String := "sentence-transformers/all-MiniLM-L6-v2"

def LLM_MODEL_NAME : String := "qwen/qwen3-30b-a3b:free"

def OPENROUTER_API_BASE : String := "https://openrouter.ai/api/v1"

def CONTEXT_WINDOW : Nat := 41984

def MAX_TOKENS_OUTPUT : Nat := 4096

def TEMPERATURE : Rat := (1 : Rat) / 10

def REQUEST_TIMEOUT : Nat := 120

def CHUNK_SIZE : Nat := 512

def CHUNK_OVERLAP : Nat := 50

def HTTP_REFERER : String := "https://github.com/your-repo/your-project"

def X_TITLE : String := "Context-Aware RAG Chatbot"

/-- `src/config.py` performs only assignments and neither it nor the startup
path in `src/main_cli.py` (`run`, `configure_llama_index_settings`) checks the
chunking parameters: startup accepts every `(chunkSize, chunkOverlap)` pair. -/
def config_startup_check (_chunkSize _chunkOverlap : Nat) : Except String Unit :=
  Except.ok ()

/-! ## String primitives

Python string operations used by the source, written over the character
list so that they evaluate by kernel reduction. -/

/-- Python `str.strip()`: drop whitespace from both ends. -/
def pyStrip (s : String) : String :=
  String.mk ((((s.data.dropWhile Char.isWhitespace).reverse).dropWhile
    Char.isWhitespace).reverse)

/-- Python `str.lower()`. -/
def pyLower (s : String) : String := String.mk (s.data.map Char.toLower)

/-- Python slicing `s[:n]`. -/
def pyTake (s : String) (n : Nat) : String := String.mk (s.data.take n)

/-- Python truthiness of `s.strip()` negated: `not s.strip()` is true exactly
when every character of `s` is whitespace. -/
def isBlank (s : String) : Bool := s.data.all Char.isWhitespace

/-! ## PDF extraction (`src/pdf_processor.py`) -/

/-- Abstract view of a file on disk as observed by `extract_text_from_pdf`:
whether `os.path.exists` is true, whether the `PdfReader` constructor
succeeds, the `is_encrypted` flag, and per page either the text returned by
`page.extract_text()` (`some`) or a page-level extraction exception (`none`). -/
structure PdfFile where
  present : Bool
  parseOk : Bool
  encrypted : Bool
  pages : List (Option String)
deriving Repr, DecidableEq

/-- One iteration of the page loop of `extract_text_from_pdf` (lines 51-59):
a page whose extraction succeeds with nonempty (truthy) text appends
`page_text + "\n"` to the accumulator; a page-level exception or empty text
leaves the accumulator unchanged. -/
def pageStep (acc : String) (p : Option String) : String :=
  match p with
  | some t => if t = "" then acc else acc ++ t ++ "\n"
  | none => acc

/-- The page loop of `extract_text_from_pdf`, starting from the empty string. -/
def pageFold (pages : List (Option String)) : String :=
  pages.foldl pageStep ""

/-- `extract_text_from_pdf` (`src/pdf_processor.py` lines 28-69), branch for
branch: missing path, reader-constructor exception (outer `except`), zero
pages, encrypted, whitespace-only accumulated text all return `None`;
otherwise the accumulated text is returned. -/
def extract_text_from_pdf (d : PdfFile) : Option String :=
  if d.present = false then none
  else if d.parseOk = false then none
  else if d.pages.length = 0 then none
  else if d.encrypted = true then none
  else if isBlank (pageFold d.pages) = true then none
  else some (pageFold d.pages)

/-- The five failure classes of extraction. -/
inductive ExtractFailure where
  | NotFound
  | Unreadable
  | Empty
  | Encrypted
  | NoExtractableText
deriving Repr, DecidableEq

/-- The failure classification of `extract_text_from_pdf`, read off from its
log calls (`logging.error` / `logging.warning`) in the same branch order as
the source: each failing branch logs a distinct message.  The classification
is emitted only to the log; the function returns `None` in every case. -/
def extract_failure_log (d : PdfFile) : Option ExtractFailure :=
  if d.present = false then some ExtractFailure.NotFound
  else if d.parseOk = false then some ExtractFailure.Unreadable
  else if d.pages.length = 0 then some ExtractFailure.Empty
  else if d.encrypted = true then some ExtractFailure.Encrypted
  else if isBlank (pageFold d.pages) = true then some ExtractFailure.NoExtractableText
  else none

/-- The concatenation named by the spec sentence "concatenation of all
successfully extracted page texts, newline-separated" — written from the
spec words, for comparison against what the code computes. -/
def spec_newline_separated (pages : List (Option String)) : String :=
  String.intercalate "\n" (pages.filterMap id)

/-- Closed form of `pageFold`: each successfully extracted nonempty page text
followed by a newline, concatenated in page order. -/
def newline_terminated (pages : List (Option String)) : String :=
  String.join (((pages.filterMap id).filter (fun t => t != "")).map (fun t => t ++ "\n"))

/-! ## Chunking (`src/pdf_processor.py` lines 71-92)

The splitting algorithm itself lives in the external llama-index
`SentenceSplitter`; `chunk_text` only guards the input, constructs the
splitter with the configured size and overlap, and catches every exception,
returning the empty list.  The splitter is modelled from the spec below. -/

/-- Modelled from the spec: the length-based splitting of the external
`SentenceSplitter` (spec section 4.3), which is not part of this repository.
Working in abstract length units, a text no longer than `cs` yields the single
segment equal to the whole text; a longer text yields a window of `cs` units
and continues after advancing by `step = cs - overlap` units, so that adjacent
segments share the last `overlap` units.  `fuel` bounds the recursion. -/
def splitGo (cs step : Nat) : Nat → String → List String
  | 0, _ => []
  | fuel + 1, t =>
    if t.length ≤ cs then [t]
    else t.take cs :: splitGo cs step fuel (t.drop step)

/-- Modelled from the spec: the external `SentenceSplitter` collaborator.  Its
constructor rejects a chunk overlap strictly larger than the chunk size with a
`ValueError` (an overlap equal to the chunk size is accepted); otherwise the
text is split into overlapping windows. -/
def sentenceSplitterNodes (chunkSize chunkOverlap : Nat) (text : String) :
    Except String (List String) :=
  if chunkSize < chunkOverlap then
    Except.error "Got a larger chunk overlap than chunk size"
  else
    Except.ok (splitGo chunkSize (chunkSize - chunkOverlap) (text.length + 1) text)

/-- `chunk_text` (`src/pdf_processor.py` lines 71-92) with explicit size and
overlap parameters.  `if not text` catches both `None` and the empty string;
the `try` block around the splitter catches every exception and returns `[]`. -/
def chunk_text_with (chunkSize chunkOverlap : Nat) (text : Option String) :
    List String :=
  match text with
  | none => []
  | some t =>
    if t = "" then []
    else
      match sentenceSplitterNodes chunkSize chunkOverlap t with
      | Except.ok nodes => nodes
      | Except.error _ => []

/-- `chunk_text` as in the source: the splitter is always constructed with the
configured `CHUNK_SIZE` and `CHUNK_OVERLAP`. -/
def chunk_text (text : Option String) : List String :=
  chunk_text_with CHUNK_SIZE CHUNK_OVERLAP text

/-! ## Content fingerprint (`src/pdf_processor.py` lines 13-26) -/

/-- Interface of the external incremental hash accumulator (`hashlib.md5`):
an initial state, a state update per block of bytes, and a final hex digest. -/
structure Hasher (α : Type) where
  init : α
  update : α → List Nat → α
  final : α → String

/-- The read loop `while chunk := f.read(8192)` viewed as the list of blocks
it produces: successive blocks of at most 8192 bytes, stopping at the first
empty read.  `fuel` bounds the recursion; `readBlocks` supplies enough. -/
def readBlocksGo : Nat → List Nat → List (List Nat)
  | 0, _ => []
  | _ + 1, [] => []
  | fuel + 1, b :: bs => (b :: bs).take 8192 :: readBlocksGo fuel ((b :: bs).drop 8192)

/-- The blocks read from a byte stream in the loop of `get_pdf_id`. -/
def readBlocks (bytes : List Nat) : List (List Nat) :=
  readBlocksGo (bytes.length + 1) bytes

/-- `get_pdf_id` (`src/pdf_processor.py` lines 13-26): a stream that cannot be
opened or read raises `IOError`, which is caught and turned into `None`;
otherwise each 8192-byte block feeds the incremental hasher and the final
digest is returned.  `bytes = none` models the unreadable stream (missing
file, permissions, I/O fault — all `OSError`/`IOError` in Python 3). -/
def get_pdf_id {α : Type} (h : Hasher α) (bytes : Option (List Nat)) :
    Option String :=
  match bytes with
  | none => none
  | some bs => some (h.final ((readBlocks bs).foldl h.update h.init))

/-! ## Index build and cache (`src/main_cli.py` lines 57-107) -/

/-- A document as the pipeline sees it: the raw byte stream read by
`get_pdf_id` (or `none` when unreadable) and the `PdfReader` view used by
`extract_text_from_pdf`. -/
structure Doc where
  bytes : Option (List Nat)
  pdf : PdfFile

/-- The in-memory index of the external `VectorStoreIndex`, modelled at its
interface: one embedding vector per node, in node order. -/
abbrev Index := List (String × List Int)

/-- `VectorStoreIndex(nodes)` invokes the configured embedding model once per
node and stores the vectors in node order. -/
def buildVectorIndex (embedFn : String → List Int) (nodes : List String) : Index :=
  nodes.map (fun n => (n, embedFn n))

/-- A persisted cache entry under `INDEX_CACHE_DIR/pdf_id`: either a directory
whose storage context deserializes to an index, or a corrupt entry on which
`load_index_from_storage` raises. -/
inductive StoredEntry where
  | good (idx : Index)
  | corrupt
deriving Repr, DecidableEq

/-- `load_index_from_storage` on a persisted entry: a corrupt entry raises,
which the caller catches (`none`); a good entry deserializes to its index. -/
def load_index_from_storage : StoredEntry → Option Index
  | StoredEntry.good idx => some idx
  | StoredEntry.corrupt => none

/-- The on-disk cache directory: a map from `pdf_id` to persisted entries. -/
abbrev Cache := List (String × StoredEntry)

/-- `os.path.exists(index_path)` together with reading the entry. -/
def cacheLookup (c : Cache) (k : String) : Option StoredEntry :=
  (c.find? (fun e => e.fst == k)).map Prod.snd

/-- `index.storage_context.persist(persist_dir=index_path)`: writes the entry
under the key, overwriting any previous entry at the same path. -/
def cachePersist (c : Cache) (k : String) (e : StoredEntry) : Cache :=
  (k, e) :: c.filter (fun p => p.fst != k)

/-- How many times each collaborator was invoked during one
`get_or_build_index` call: `extract_text_from_pdf` calls, `chunk_text` calls,
and individual embedding-model invocations. -/
structure BuildTrace where
  extractCalls : Nat
  chunkCalls : Nat
  embedCalls : Nat
deriving Repr, DecidableEq

/-- The miss path of `get_or_build_index` (`src/main_cli.py` lines 79-107):
extract, chunk, build, persist.  Extraction failure and an empty node list
each return `None` without touching the cache; otherwise the index is built
(one embedding per node) and persisted under the fingerprint key.  The modelled
embedding collaborator is total, so the `try` around build/persist has no
failing branch here. -/
def build_and_persist (embedFn : String → List Int) (cache : Cache)
    (pdfId : String) (doc : Doc) : Option Index × Cache × BuildTrace :=
  match extract_text_from_pdf doc.pdf with
  | none => (none, cache, ⟨1, 0, 0⟩)
  | some text =>
    if chunk_text (some text) = [] then (none, cache, ⟨1, 1, 0⟩)
    else
      (some (buildVectorIndex embedFn (chunk_text (some text))),
       cachePersist cache pdfId
         (StoredEntry.good (buildVectorIndex embedFn (chunk_text (some text)))),
       ⟨1, 1, (chunk_text (some text)).length⟩)

/-- `get_or_build_index` (`src/main_cli.py` lines 57-107).  Fingerprint
failure returns `None` at once; a cache entry that deserializes is returned
directly; a deserialization error falls through to the rebuild path, exactly
like a missing entry. -/
def get_or_build_index {α : Type} (hasher : Hasher α)
    (embedFn : String → List Int) (cache : Cache) (doc : Doc) :
    Option Index × Cache × BuildTrace :=
  match get_pdf_id hasher doc.bytes with
  | none => (none, cache, ⟨0, 0, 0⟩)
  | some pdfId =>
    match cacheLookup cache pdfId with
    | some entry =>
      match load_index_from_storage entry with
      | some idx => (some idx, cache, ⟨0, 0, 0⟩)
      | none => build_and_persist embedFn cache pdfId doc
    | none => build_and_persist embedFn cache pdfId doc

/-! ## Generation collaborator (`src/llm_client.py` lines 59-106) -/

/-- One conversation turn as serialized into the request body. -/
structure ChatMessageM where
  role : String
  content : String
deriving Repr, DecidableEq

/-- The HTTP POST request `OpenRouterLLM.chat` hands to `requests.post`:
URL, headers, JSON body fields, and the per-call timeout. -/
structure ChatRequest where
  url : String
  authorization : String
  contentType : String
  httpReferer : Option String
  xTitle : Option String
  model : String
  messages : List ChatMessageM
  temperature : Rat
  maxTokens : Nat
  timeout : Nat
deriving Repr, DecidableEq

/-- The request constructed by `chat` (`src/llm_client.py` lines 64-87):
bearer authorization, JSON content type, the optional attribution headers,
and the body with `kwargs` overrides falling back to the configured
temperature and max-tokens; `timeout=REQUEST_TIMEOUT` on every call. -/
def mkChatRequest (apiKey : String) (msgs : List ChatMessageM)
    (temperatureArg : Option Rat) (maxTokensArg : Option Nat) : ChatRequest :=
  { url := OPENROUTER_API_BASE ++ "/chat/completions"
    authorization := "Bearer " ++ apiKey
    contentType := "application/json"
    httpReferer := some HTTP_REFERER
    xTitle := some X_TITLE
    model := LLM_MODEL_NAME
    messages := msgs
    temperature := temperatureArg.getD TEMPERATURE
    maxTokens := maxTokensArg.getD MAX_TOKENS_OUTPUT
    timeout := REQUEST_TIMEOUT }

/-- The `message` object of the first choice of the response JSON: the
fields `chat` reads, each possibly absent. -/
structure ApiMessage where
  role : Option String
  content : Option String
deriving Repr, DecidableEq

/-- One element of the `choices` array. -/
structure ApiChoice where
  message : Option ApiMessage
deriving Repr, DecidableEq

/-- The decoded response JSON: the `choices` field, absent or null mapping
to `none`. -/
structure ApiResponse where
  choices : Option (List ApiChoice)
deriving Repr, DecidableEq

/-- Outcome of one `requests.post` call: a `requests.exceptions.
RequestException` (connection error, timeout, and similar transport
failures), or an HTTP response carrying a status code and a body
(`none` when `response.json()` cannot decode it). -/
inductive HttpOutcome where
  | requestException (msg : String)
  | response (status : Nat) (body : Option ApiResponse)

/-- The distinct exception kinds `chat` propagates to its caller:
`RequestException` re-raised from the transport, `HTTPError` raised by
`raise_for_status`, and the `ValueError`/`KeyError`/`IndexError` family from
body parsing. -/
inductive ChatError where
  | requestFailed (msg : String)
  | httpStatus (code : Nat)
  | parseError (msg : String)
deriving Repr, DecidableEq

/-- `response.raise_for_status()`: raises `HTTPError` exactly for client and
server error codes, 400-599; informational, success and redirection statuses
pass through silently. -/
def raise_for_status (code : Nat) : Except ChatError Unit :=
  if 400 ≤ code ∧ code < 600 then Except.error (ChatError.httpStatus code)
  else Except.ok ()

/-- The role strings accepted by the llama-index `MessageRole` enum;
`MessageRole(role_str)` raises `ValueError` on any other string. -/
def messageRoleValues : List String :=
  ["system", "user", "assistant", "function", "tool", "chatbot", "model"]

/-- The message `chat` returns on success: role and generated content. -/
structure ChatResponseM where
  role : String
  content : String
deriving Repr, DecidableEq

/-- Body handling of `chat` (`src/llm_client.py` lines 89-99): an
undecodable body raises from `response.json()`; a falsy `choices` or a
missing first-choice `message` raises the explicit `ValueError`; a missing
`content` key raises `KeyError`; `role` defaults to `assistant` and an
unknown role string makes the `MessageRole` constructor raise `ValueError`.
All of these reach the caller through the second `except` clause. -/
def parseChatBody (body : Option ApiResponse) : Except ChatError ChatResponseM :=
  match body with
  | none => Except.error (ChatError.parseError "response body is not valid JSON")
  | some rj =>
    match rj.choices with
    | none => Except.error (ChatError.parseError "Unexpected response format from OpenRouter")
    | some [] => Except.error (ChatError.parseError "Unexpected response format from OpenRouter")
    | some (c :: _) =>
      match c.message with
      | none => Except.error (ChatError.parseError "Unexpected response format from OpenRouter")
      | some msg =>
        match msg.content with
        | none => Except.error (ChatError.parseError "KeyError: content")
        | some content =>
          let roleStr := msg.role.getD "assistant"
          if messageRoleValues.contains roleStr then
            Except.ok ⟨roleStr, content⟩
          else
            Except.error (ChatError.parseError "ValueError: invalid role")

/-- `OpenRouterLLM.chat` (`src/llm_client.py` lines 59-106) over an abstract
HTTP transport: build the request, post it, check the status, parse the body.
Every failure is re-raised to the caller with its kind preserved. -/
def chat (transport : ChatRequest → HttpOutcome) (apiKey : String)
    (msgs : List ChatMessageM) (temperatureArg : Option Rat)
    (maxTokensArg : Option Nat) : Except ChatError ChatResponseM :=
  match transport (mkChatRequest apiKey msgs temperatureArg maxTokensArg) with
  | HttpOutcome.requestException e => Except.error (ChatError.requestFailed e)
  | HttpOutcome.response status body =>
    match raise_for_status status with
    | Except.error e => Except.error e
    | Except.ok _ => parseChatBody body

/-! ## Interactive query loop (`src/main_cli.py` lines 109-162) -/

/-- What one successful `query_engine.query` call yields: the answer text
and the contents of the source nodes used. -/
structure EngineResponse where
  answer : String
  sources : List String
deriving Repr, DecidableEq

/-- The exit test `user_query.lower() in ["quit", "exit"]`. -/
def isExitWord (s : String) : Bool := s == "quit" || s == "exit"

/-- The source preview printed for one source node: the first 350 characters,
stripped. -/
def sourcePreview (s : String) : String := pyStrip (pyTake s 350)

/-- The `while True` loop of `query_index_interactive` over a scripted list
of input lines, recording the essential printed lines.  Empty input repeats
the prompt; an exit word (or exhausted input, which raises `EOFError` at
`input()`) leaves the loop; an exception from `query_engine.query` prints the
error and the retry hint and continues with the next line; a successful query
prints the answer, then consumes one further line for the show-sources
prompt. -/
def query_loop (engine : String → Except String EngineResponse) :
    List String → List String
  | [] => ["Exiting query mode."]
  | line :: rest =>
    let q := pyStrip line
    if q = "" then query_loop engine rest
    else if isExitWord (pyLower q) then ["Exiting query mode."]
    else
      match engine q with
      | Except.error e =>
        ("An error occurred during querying: " ++ e) ::
        "Please try a different query or type quit to exit." ::
        query_loop engine rest
      | Except.ok resp =>
        match rest with
        | [] => [resp.answer, "Exiting query mode."]
        | showSrc :: rest2 =>
          resp.answer ::
          ((if pyLower (pyStrip showSrc) = "yes" then
              if resp.sources = [] then
                ["No source node information was returned for this response."]
              else
                resp.sources.map sourcePreview
            else []) ++ query_loop engine rest2)
termination_by inputs => inputs.length
decreasing_by all_goals simp_wf <;> omega

/-- `query_index_interactive` (`src/main_cli.py` lines 109-162): a missing
index aborts; otherwise the query engine is created once from the index and
the loop runs.  The engine construction `index.as_query_engine` is modelled
as a total function of the index, so its `try` has no failing branch here. -/
def query_index_interactive (idx : Option Index)
    (mkEngine : Index → String → Except String EngineResponse)
    (inputs : List String) : List String :=
  match idx with
  | none => ["Index not available for querying."]
  | some i => "--- Ready to Answer Questions ---" :: query_loop (mkEngine i) inputs

/-! ## Concrete fixtures used to evaluate the development on closed inputs -/

/-- A trivial incremental hasher: every stream digests to `"h"`. -/
def hasher0 : Hasher Nat := ⟨0, fun a _ => a, fun _ => "h"⟩

/-- A trivial embedding collaborator: the vector is the text length. -/
def embed0 : String → List Int := fun s => [Int.ofNat s.length]

/-- A readable one-page document whose page yields the text `"a"`. -/
def pdfOk : PdfFile := ⟨true, true, false, [some "a"]⟩

/-- A readable, parseable, encrypted one-page document. -/
def pdfEnc : PdfFile := ⟨true, true, true, [some "x"]⟩

/-- A document whose bytes are readable and whose pages extract. -/
def doc0 : Doc := ⟨some [1, 2, 3], pdfOk⟩

/-- An encrypted document with readable bytes. -/
def docEnc : Doc := ⟨some [1], pdfEnc⟩

/-- A document whose byte stream cannot be read (`IOError`). -/
def docNoBytes : Doc := ⟨none, pdfOk⟩

/-- A small index for cache fixtures. -/
def idx0 : Index := [("seg", [7])]

/-- A cache holding a valid persisted entry under the digest of `hasher0`. -/
def cache0 : Cache := [("h", StoredEntry.good idx0)]

/-- A query engine that fails on the question `"bad"` and otherwise answers
`"ans"` with no sources. -/
def engine0 : Index → String → Except String EngineResponse :=
  fun _ q => if q == "bad" then Except.error "boom" else Except.ok ⟨"ans", []⟩

/-! ## Helper lemmas -/

/-- Folding string concatenation from any accumulator factors out the
accumulator. -/
theorem foldl_append_shift (l : List String) :
    ∀ a : String, l.foldl (fun r s => r ++ s) a = a ++ l.foldl (fun r s => r ++ s) "" := by
  induction l with
  | nil => intro a; simp [String.append_empty]
  | cons x xs ih =>
    intro a
    show xs.foldl (fun r s => r ++ s) (a ++ x) = a ++ xs.foldl (fun r s => r ++ s) ("" ++ x)
    rw [ih (a ++ x), ih ("" ++ x), String.empty_append, String.append_assoc]

/-- `String.join` distributes over cons. -/
theorem join_str_cons (s : String) (l : List String) :
    String.join (s :: l) = s ++ String.join l := by
  show (s :: l).foldl (fun r t => r ++ t) "" = s ++ l.foldl (fun r t => r ++ t) ""
  show l.foldl (fun r t => r ++ t) ("" ++ s) = _
  rw [foldl_append_shift, String.empty_append]

/-- The page loop started from any accumulator appends the closed-form
concatenation of the remaining pages. -/
theorem pageFold_from (pages : List (Option String)) :
    ∀ acc : String, pages.foldl pageStep acc = acc ++ newline_terminated pages := by
  induction pages with
  | nil => intro acc; simp [newline_terminated, String.join, String.append_empty]
  | cons p ps ih =>
    intro acc
    match p with
    | none =>
      show ps.foldl pageStep acc = acc ++ newline_terminated (none :: ps)
      rw [ih acc]
      simp [newline_terminated]
    | some t =>
      by_cases ht : t = ""
      · subst ht
        show ps.foldl pageStep (if "" = "" then acc else acc ++ "" ++ "\n") =
          acc ++ newline_terminated (some "" :: ps)
        rw [if_pos rfl, ih acc]
        simp [newline_terminated]
      · show ps.foldl pageStep (if t = "" then acc else acc ++ t ++ "\n") =
          acc ++ newline_terminated (some t :: ps)
        rw [if_neg ht, ih (acc ++ t ++ "\n")]
        have hnt : newline_terminated (some t :: ps) =
            (t ++ "\n") ++ newline_terminated ps := by
          simp only [newline_terminated, List.filterMap_cons, id_eq, List.filter_cons,
            bne_iff_ne, ne_eq, ht, not_false_eq_true, decide_True, List.map_cons]
          exact join_str_cons _ _
        rw [hnt, String.append_assoc, String.append_assoc, String.append_assoc]

/-- The page loop equals its closed form. -/
theorem pageFold_eq (pages : List (Option String)) :
    pageFold pages = newline_terminated pages := by
  show pages.foldl pageStep "" = _
  rw [pageFold_from pages "", String.empty_append]

/-- An encrypted document never extracts: every branch of
`extract_text_from_pdf` past the encryption check requires `is_encrypted` to
be false, and every earlier branch already returns `None`. -/
theorem extract_none_of_encrypted (d : PdfFile) (h : d.encrypted = true) :
    extract_text_from_pdf d = none := by
  unfold extract_text_from_pdf
  split_ifs <;> simp_all

/-! ## Claim C3 -/

/-- C3, counterexample.  The claim says extraction failures reach the caller
as a tagged reason distinguishing `NotFound`, `Unreadable`, `Encrypted`,
`Empty` and `NoExtractableText`.  In the code the classification exists only
in the log messages: a missing file and a zero-page document fall in
different classes, yet `extract_text_from_pdf` returns the same
undifferentiated value `None` to the caller for both, so the surfaced result
cannot distinguish any of the five classes. -/
theorem extract_failure_undifferentiated_cex :
    extract_failure_log ⟨false, true, false, [some "a"]⟩ = some ExtractFailure.NotFound ∧
    extract_failure_log ⟨true, true, false, []⟩ = some ExtractFailure.Empty ∧
    ExtractFailure.NotFound ≠ ExtractFailure.Empty ∧
    extract_text_from_pdf ⟨false, true, false, [some "a"]⟩ =
      extract_text_from_pdf ⟨true, true, false, []⟩ :=
  ⟨rfl, rfl, by decide, rfl⟩

/-- C3, amended: extraction failures are classified into the five tagged
reasons only in the emitted log messages (`extract_failure_log`); the caller
receives the undifferentiated value `None` for every failure class —
extraction returns `None` exactly when some failure class is logged. -/
theorem extract_failure_logged_not_returned (d : PdfFile) :
    extract_text_from_pdf d = none ↔ (extract_failure_log d).isSome := by
  unfold extract_text_from_pdf extract_failure_log
  split_ifs <;> simp

/-! ## Claim C4 -/

/-- C4, counterexample.  The claim says extraction returns the
newline-separated concatenation of the successfully extracted page texts.
The code appends a newline after every nonempty page text, so for a one-page
document with page text `"a"` it returns `"a\n"`, not the newline-separated
concatenation `"a"`. -/
theorem extract_not_newline_separated_cex :
    extract_text_from_pdf ⟨true, true, false, [some "a"]⟩ = some "a\n" ∧
    spec_newline_separated [some "a"] = "a" ∧
    ("a\n" : String) ≠ "a" :=
  ⟨rfl, rfl, by decide⟩

/-- C4, amended: for every readable, parseable, non-encrypted document with
at least one page, extraction returns the concatenation of each successfully
extracted nonempty page text followed by a newline (newline-terminated, in
page order; failing pages and pages yielding empty text are skipped), and if
that concatenation is empty or whitespace-only the extraction is reported as
a failure (`None`). -/
theorem extract_newline_terminated_concat (d : PdfFile)
    (h1 : d.present = true) (h2 : d.parseOk = true) (h3 : d.encrypted = false)
    (h4 : d.pages.length ≠ 0) :
    extract_text_from_pdf d =
      (if isBlank (newline_terminated d.pages) = true then none
       else some (newline_terminated d.pages)) := by
  unfold extract_text_from_pdf
  rw [pageFold_eq]
  simp [h1, h2, h3, h4]

/-- C4, witness: a document with one good page `"a"`, one failing page and
one empty page extracts to `"a\n"`. -/
theorem extract_newline_terminated_concat_witness :
    extract_text_from_pdf ⟨true, true, false, [some "a", none, some ""]⟩ = some "a\n" :=
  (extract_newline_terminated_concat ⟨true, true, false, [some "a", none, some ""]⟩
    rfl rfl rfl (by decide)).trans (by decide)

/-! ## Claim C5 -/

/-- C5: `chunk_text` on `None` and on the empty string returns the empty
list (not an error), and every nonempty text shorter than `CHUNK_SIZE`
yields exactly one segment equal to the whole input.  The splitting itself
is the spec-modelled external `SentenceSplitter`; the `None`/empty guard is
the code of `chunk_text`. -/
theorem chunk_edge_cases (t : String) (hne : t ≠ "") (hlen : t.length < CHUNK_SIZE) :
    chunk_text none = [] ∧ chunk_text (some "") = [] ∧ chunk_text (some t) = [t] := by
  refine ⟨rfl, rfl, ?_⟩
  have hsplit : sentenceSplitterNodes CHUNK_SIZE CHUNK_OVERLAP t = Except.ok [t] := by
    unfold sentenceSplitterNodes
    rw [if_neg (by decide : ¬ (CHUNK_SIZE < CHUNK_OVERLAP))]
    congr 1
    unfold splitGo
    rw [if_pos (Nat.le_of_lt hlen)]
  simp [chunk_text, chunk_text_with, hne, hsplit]

/-- C5, witness at the input `"hi"`. -/
theorem chunk_edge_cases_witness :
    chunk_text none = [] ∧ chunk_text (some "") = [] ∧ chunk_text (some "hi") = ["hi"] :=
  chunk_edge_cases "hi" (by decide) (by decide)

/-! ## Claim C6 -/

/-- C6, counterexample.  The claim says a configuration with
`chunkOverlap ≥ chunkSize` is detected and reported as a configuration error
at program startup.  No startup validation exists: with
`chunkOverlap = chunkSize = 512` (which violates the strict bound) startup
accepts the configuration, and even the chunk call itself succeeds, because
the external splitter only rejects an overlap strictly greater than the
size. -/
theorem chunk_overlap_no_startup_check_cex :
    CHUNK_SIZE ≤ CHUNK_SIZE ∧
    config_startup_check CHUNK_SIZE CHUNK_SIZE = Except.ok () ∧
    config_startup_check CHUNK_SIZE 600 = Except.ok () ∧
    chunk_text_with CHUNK_SIZE CHUNK_SIZE (some "hi") = ["hi"] :=
  ⟨Nat.le_refl _, rfl, rfl, by decide⟩

/-- C6, amended: startup performs no validation of the chunking parameters
(it accepts every pair); a configuration with `chunkOverlap` strictly greater
than `chunkSize` is rejected only at chunk-call time, where the splitter
constructor error is caught and the empty segment list returned; the shipped
configuration satisfies `CHUNK_OVERLAP < CHUNK_SIZE`. -/
theorem chunk_overlap_checked_at_call_time (cs co : Nat) (t : String)
    (hgt : cs < co) (hne : t ≠ "") :
    config_startup_check cs co = Except.ok () ∧
    chunk_text_with cs co (some t) = [] ∧
    CHUNK_OVERLAP < CHUNK_SIZE := by
  refine ⟨rfl, ?_, by decide⟩
  have hsplit : sentenceSplitterNodes cs co t =
      Except.error "Got a larger chunk overlap than chunk size" := by
    unfold sentenceSplitterNodes
    rw [if_pos hgt]
  simp [chunk_text_with, hne, hsplit]

/-- C6, witness: overlap 600 against size 512 is accepted at startup and
surfaces as an empty chunk list at call time. -/
theorem chunk_overlap_checked_at_call_time_witness :
    config_startup_check 512 600 = Except.ok () ∧
    chunk_text_with 512 600 (some "abc") = [] ∧
    CHUNK_OVERLAP < CHUNK_SIZE :=
  chunk_overlap_checked_at_call_time 512 600 "abc" (by decide) (by decide)

/-! ## Claim C10 -/

/-- C10: `chunk_text` is total — for every size, overlap and input it
returns a plain list, and any error of the splitting step (in particular the
invalid-configuration `ValueError` of the splitter constructor) is caught
and turned into the empty list. -/
theorem chunk_text_total_catches (cs co : Nat) (text : Option String) :
    (∃ l : List String, chunk_text_with cs co text = l) ∧
    (∀ t e, text = some t → t ≠ "" → sentenceSplitterNodes cs co t = Except.error e →
      chunk_text_with cs co text = []) := by
  refine ⟨⟨_, rfl⟩, ?_⟩
  intro t e htext hne herr
  subst htext
  simp [chunk_text_with, hne, herr]

/-- C10, witness: the splitter error for overlap 600 against size 512 is
caught and the empty list returned. -/
theorem chunk_text_total_catches_witness :
    chunk_text_with 512 600 (some "xy") = [] :=
  (chunk_text_total_catches 512 600 (some "xy")).2 "xy"
    "Got a larger chunk overlap than chunk size" rfl (by decide) rfl

/-! ## Claim C7 -/

/-- With enough fuel, the blocks of the read loop concatenate back to the
whole byte stream (no byte is lost or duplicated by blockwise reading). -/
theorem readBlocksGo_flatten :
    ∀ (fuel : Nat) (l : List Nat), l.length ≤ fuel →
      (readBlocksGo fuel l).flatten = l := by
  intro fuel
  induction fuel with
  | zero =>
    intro l hl
    have : l = [] := List.eq_nil_of_length_eq_zero (Nat.le_zero.mp hl)
    subst this
    rfl
  | succ n ih =>
    intro l hl
    match l with
    | [] => rfl
    | b :: bs =>
      show ((b :: bs).take 8192 :: readBlocksGo n ((b :: bs).drop 8192)).flatten = b :: bs
      rw [List.flatten_cons,
        ih ((b :: bs).drop 8192)
          (by simp only [List.length_drop, List.length_cons] at hl ⊢; omega),
        List.take_append_drop]

/-- Every block of the read loop is nonempty and holds at most 8192 bytes. -/
theorem readBlocksGo_block_size :
    ∀ (fuel : Nat) (l : List Nat) (b : List Nat), b ∈ readBlocksGo fuel l →
      b ≠ [] ∧ b.length ≤ 8192 := by
  intro fuel
  induction fuel with
  | zero => intro l b hb; exact absurd hb (by simp [readBlocksGo])
  | succ n ih =>
    intro l b hb
    match l with
    | [] => exact absurd hb (by simp [readBlocksGo])
    | x :: xs =>
      rw [show readBlocksGo (n + 1) (x :: xs) =
          (x :: xs).take 8192 :: readBlocksGo n ((x :: xs).drop 8192) from rfl] at hb
      rcases List.mem_cons.mp hb with h | h
      · subst h
        constructor
        · rw [List.take_succ_cons]
          exact List.cons_ne_nil _ _
        · rw [List.length_take]
          exact Nat.min_le_left _ _
      · exact ih _ _ h

/-- C7: for every document whose byte stream cannot be read, `get_pdf_id`
fails (the caught `IOError` becomes `None`) and `get_or_build_index` returns
failure at once — no extraction, chunking or embedding happens and the cache
is untouched; for every readable stream the fingerprint is the final digest
of feeding the incremental hasher the stream in blocks, where the blocks
partition the stream (they concatenate back to it) and each block holds at
most 8192 bytes. -/
theorem fingerprint_io_failure_and_block_digest {α : Type} (hasher : Hasher α)
    (embedFn : String → List Int) (cache : Cache) (doc : Doc) :
    (doc.bytes = none →
      get_pdf_id hasher doc.bytes = none ∧
      get_or_build_index hasher embedFn cache doc = (none, cache, ⟨0, 0, 0⟩)) ∧
    (∀ bs, doc.bytes = some bs →
      get_pdf_id hasher doc.bytes =
        some (hasher.final ((readBlocks bs).foldl hasher.update hasher.init)) ∧
      (readBlocks bs).flatten = bs ∧
      (∀ b ∈ readBlocks bs, b ≠ [] ∧ b.length ≤ 8192)) := by
  constructor
  · intro hb
    have hid : get_pdf_id hasher doc.bytes = none := by
      rw [hb]; rfl
    refine ⟨hid, ?_⟩
    unfold get_or_build_index
    rw [hid]
  · intro bs hb
    refine ⟨by rw [hb]; rfl, ?_, ?_⟩
    · exact readBlocksGo_flatten _ bs (Nat.le_succ _)
    · intro b hbmem
      exact readBlocksGo_block_size _ bs b hbmem

/-- C7, witness: an unreadable stream yields failure without building, and
the bytes `[1, 2, 3]` digest through the trivial hasher. -/
theorem fingerprint_io_failure_and_block_digest_witness :
    (get_pdf_id hasher0 docNoBytes.bytes = none ∧
      get_or_build_index hasher0 embed0 [] docNoBytes = (none, [], ⟨0, 0, 0⟩)) ∧
    get_pdf_id hasher0 doc0.bytes =
      some (hasher0.final ((readBlocks [1, 2, 3]).foldl hasher0.update hasher0.init)) :=
  ⟨(fingerprint_io_failure_and_block_digest hasher0 embed0 [] docNoBytes).1 rfl,
   ((fingerprint_io_failure_and_block_digest hasher0 embed0 [] doc0).2 [1, 2, 3] rfl).1⟩

/-! ## Claim C8 -/

/-- C8, counterexample.  The claim says the call fails on every non-2xx HTTP
status.  `raise_for_status` only raises for 4xx/5xx, so a non-2xx response
such as 300 with a well-formed body is not rejected: `chat` succeeds even
though the status is not 2xx. -/
theorem chat_redirect_status_not_rejected_cex :
    chat (fun _ => HttpOutcome.response 300
        (some ⟨some [⟨some ⟨some "assistant", some "hello"⟩⟩]⟩))
      "key" [⟨"user", "q"⟩] none none = Except.ok ⟨"assistant", "hello"⟩ ∧
    ¬ (200 ≤ 300 ∧ 300 < 300) :=
  ⟨rfl, by decide⟩

/-- C8, amended: every call carries the fixed per-call timeout
`REQUEST_TIMEOUT`; the call fails distinctly on a transport error
(`requestFailed`), on a 4xx or 5xx HTTP status (`httpStatus` — statuses
outside 400-599, including non-2xx informational and redirect statuses, are
not rejected and proceed to body parsing), and on a response body missing
the expected generated-text field (`parseError`); the three failure kinds
are pairwise distinct; on success the generated text of the response body is
returned. -/
theorem chat_distinct_failures_and_timeout
    (transport : ChatRequest → HttpOutcome) (apiKey : String)
    (msgs : List ChatMessageM) (tArg : Option Rat) (mArg : Option Nat) :
    (mkChatRequest apiKey msgs tArg mArg).timeout = REQUEST_TIMEOUT ∧
    (∀ e, transport (mkChatRequest apiKey msgs tArg mArg) = HttpOutcome.requestException e →
      chat transport apiKey msgs tArg mArg = Except.error (ChatError.requestFailed e)) ∧
    (∀ status body,
      transport (mkChatRequest apiKey msgs tArg mArg) = HttpOutcome.response status body →
      400 ≤ status → status < 600 →
      chat transport apiKey msgs tArg mArg = Except.error (ChatError.httpStatus status)) ∧
    (∀ status body,
      transport (mkChatRequest apiKey msgs tArg mArg) = HttpOutcome.response status body →
      ¬ (400 ≤ status ∧ status < 600) →
      chat transport apiKey msgs tArg mArg = parseChatBody body) ∧
    (∀ (role : Option String) (rest : List ApiChoice),
      parseChatBody (some ⟨some (⟨some ⟨role, none⟩⟩ :: rest)⟩) =
        Except.error (ChatError.parseError "KeyError: content")) ∧
    (∀ (content : String) (rest : List ApiChoice),
      parseChatBody (some ⟨some (⟨some ⟨some "assistant", some content⟩⟩ :: rest)⟩) =
        Except.ok ⟨"assistant", content⟩) ∧
    (∀ e c m, ChatError.requestFailed e ≠ ChatError.httpStatus c ∧
      ChatError.requestFailed e ≠ ChatError.parseError m ∧
      ChatError.httpStatus c ≠ ChatError.parseError m) := by
  refine ⟨rfl, ?_, ?_, ?_, ?_, ?_, ?_⟩
  · intro e h
    unfold chat
    rw [h]
  · intro status body h h4 h6
    simp only [chat, h, raise_for_status]
    rw [if_pos ⟨h4, h6⟩]
  · intro status body h hn
    simp only [chat, h, raise_for_status]
    rw [if_neg hn]
  · intro role rest
    rfl
  · intro content rest
    rfl
  · intro e c m
    refine ⟨?_, ?_, ?_⟩ <;> intro h <;> exact ChatError.noConfusion h

/-- C8, witness: a transport timeout surfaces as `requestFailed`, a 503
status as `httpStatus`, a body missing the content field as `parseError`,
and the request always carries the 120-second timeout. -/
theorem chat_distinct_failures_and_timeout_witness :
    (mkChatRequest "k" [] none none).timeout = REQUEST_TIMEOUT ∧
    chat (fun _ => HttpOutcome.requestException "timed out") "k" [] none none =
      Except.error (ChatError.requestFailed "timed out") ∧
    chat (fun _ => HttpOutcome.response 503 none) "k" [] none none =
      Except.error (ChatError.httpStatus 503) ∧
    parseChatBody (some ⟨some [⟨some ⟨some "assistant", none⟩⟩]⟩) =
      Except.error (ChatError.parseError "KeyError: content") :=
  ⟨(chat_distinct_failures_and_timeout (fun _ => HttpOutcome.requestException "timed out")
      "k" [] none none).1,
   (chat_distinct_failures_and_timeout (fun _ => HttpOutcome.requestException "timed out")
      "k" [] none none).2.1 "timed out" rfl,
   (chat_distinct_failures_and_timeout (fun _ => HttpOutcome.response 503 none)
      "k" [] none none).2.2.1 503 none rfl (by decide) (by decide),
   (chat_distinct_failures_and_timeout (fun _ => HttpOutcome.response 503 none)
      "k" [] none none).2.2.2.2.1 (some "assistant") []⟩

/-! ## Claims C1 and C2: helper lemmas about the cache orchestration -/

/-- When the lookup misses, or every looked-up entry fails to deserialize,
`get_or_build_index` takes the rebuild path. -/
theorem get_or_build_eq_build_of_miss {α : Type} (hasher : Hasher α)
    (embedFn : String → List Int) (cache : Cache) (doc : Doc) (pdfId : String)
    (hid : get_pdf_id hasher doc.bytes = some pdfId)
    (hmiss : ∀ entry, cacheLookup cache pdfId = some entry →
      load_index_from_storage entry = none) :
    get_or_build_index hasher embedFn cache doc =
      build_and_persist embedFn cache pdfId doc := by
  simp only [get_or_build_index, hid]
  cases hcl : cacheLookup cache pdfId with
  | none => rfl
  | some entry => simp only [hmiss entry hcl]

/-- Persisting an entry makes it the one found under its key. -/
theorem cacheLookup_cachePersist_self (c : Cache) (k : String) (e : StoredEntry) :
    cacheLookup (cachePersist c k e) k = some e := by
  simp [cacheLookup, cachePersist]

/-- If the rebuild path returns an index, the cache it returns is the input
cache with the built index persisted under the fingerprint key. -/
theorem build_and_persist_success_cache (embedFn : String → List Int)
    (cache : Cache) (pdfId : String) (doc : Doc) (idx : Index) (cache2 : Cache)
    (tr : BuildTrace)
    (h : build_and_persist embedFn cache pdfId doc = (some idx, cache2, tr)) :
    cache2 = cachePersist cache pdfId (StoredEntry.good idx) := by
  unfold build_and_persist at h
  cases hex : extract_text_from_pdf doc.pdf with
  | none => simp only [hex] at h; simp at h
  | some t =>
    simp only [hex] at h
    by_cases hn : chunk_text (some t) = []
    · rw [if_pos hn] at h; simp at h
    · rw [if_neg hn] at h
      simp only [Prod.mk.injEq, Option.some.injEq] at h
      obtain ⟨hidx, hc2, _⟩ := h
      rw [← hc2, hidx]

/-! ## Claim C1 -/

/-- C1: when the fingerprint maps to a persisted entry that deserializes,
`get_or_build_index` returns that index with the cache unchanged and zero
invocations of extraction, chunking and the embedding function; when the
entry fails to deserialize, the call equals the full rebuild path (the
corruption is treated as a miss); and a call that returned an index makes
any repeated call on the resulting cache a pure cache hit — same index, no
collaborator invocations (so in particular the embedding function is not
re-invoked). -/
theorem getOrBuild_cache_hit_short_circuit {α : Type} (hasher : Hasher α)
    (embedFn : String → List Int) (cache : Cache) (doc : Doc) (pdfId : String)
    (hid : get_pdf_id hasher doc.bytes = some pdfId) :
    (∀ idx, cacheLookup cache pdfId = some (StoredEntry.good idx) →
      get_or_build_index hasher embedFn cache doc = (some idx, cache, ⟨0, 0, 0⟩)) ∧
    (∀ entry, cacheLookup cache pdfId = some entry →
      load_index_from_storage entry = none →
      get_or_build_index hasher embedFn cache doc =
        build_and_persist embedFn cache pdfId doc) ∧
    (∀ idx cache2 tr,
      get_or_build_index hasher embedFn cache doc = (some idx, cache2, tr) →
      get_or_build_index hasher embedFn cache2 doc = (some idx, cache2, ⟨0, 0, 0⟩)) := by
  refine ⟨?_, ?_, ?_⟩
  · intro idx hl
    simp only [get_or_build_index, hid, hl, load_index_from_storage]
  · intro entry hl hload
    simp only [get_or_build_index, hid, hl, hload]
  · intro idx cache2 tr h
    simp only [get_or_build_index, hid] at h ⊢
    cases hcl : cacheLookup cache pdfId with
    | some entry =>
      rw [hcl] at h
      have h2 : (match load_index_from_storage entry with
          | some i => (some i, cache, (⟨0, 0, 0⟩ : BuildTrace))
          | none => build_and_persist embedFn cache pdfId doc) =
          (some idx, cache2, tr) := h
      cases hload : load_index_from_storage entry with
      | some i0 =>
        rw [hload] at h2
        simp only [Prod.mk.injEq, Option.some.injEq] at h2
        obtain ⟨hi, hc, _⟩ := h2
        subst hi
        rw [← hc]
        simp only [hcl, hload]
      | none =>
        rw [hload] at h2
        have hc2 := build_and_persist_success_cache embedFn cache pdfId doc idx cache2 tr h2
        subst hc2
        simp only [cacheLookup_cachePersist_self, load_index_from_storage]
    | none =>
      rw [hcl] at h
      have h2 : build_and_persist embedFn cache pdfId doc = (some idx, cache2, tr) := h
      have hc2 := build_and_persist_success_cache embedFn cache pdfId doc idx cache2 tr h2
      subst hc2
      simp only [cacheLookup_cachePersist_self, load_index_from_storage]

/-- C1, witness: with the cache holding a valid entry under the document's
digest, the call returns the cached index, leaves the cache unchanged and
invokes no collaborator. -/
theorem getOrBuild_cache_hit_short_circuit_witness :
    get_or_build_index hasher0 embed0 cache0 doc0 = (some idx0, cache0, ⟨0, 0, 0⟩) :=
  (getOrBuild_cache_hit_short_circuit hasher0 embed0 cache0 doc0 "h" rfl).1 idx0 rfl

/-! ## Claim C2 -/

/-- C2: on a cache miss (no entry, or every entry fails to deserialize), a
document whose extraction fails, or whose chunking yields the empty
sequence, makes `get_or_build_index` return failure with the cache exactly
as before — no entry is created; in particular an encrypted document always
yields failure without creating a cache entry. -/
theorem getOrBuild_failure_creates_no_cache_entry {α : Type} (hasher : Hasher α)
    (embedFn : String → List Int) (cache : Cache) (doc : Doc) (pdfId : String)
    (hid : get_pdf_id hasher doc.bytes = some pdfId)
    (hmiss : ∀ entry, cacheLookup cache pdfId = some entry →
      load_index_from_storage entry = none) :
    (extract_text_from_pdf doc.pdf = none →
      get_or_build_index hasher embedFn cache doc = (none, cache, ⟨1, 0, 0⟩)) ∧
    (∀ t, extract_text_from_pdf doc.pdf = some t → chunk_text (some t) = [] →
      get_or_build_index hasher embedFn cache doc = (none, cache, ⟨1, 1, 0⟩)) ∧
    (doc.pdf.encrypted = true →
      get_or_build_index hasher embedFn cache doc = (none, cache, ⟨1, 0, 0⟩)) := by
  have hb := get_or_build_eq_build_of_miss hasher embedFn cache doc pdfId hid hmiss
  refine ⟨?_, ?_, ?_⟩
  · intro hex
    rw [hb]
    simp [build_and_persist, hex]
  · intro t hex hchunk
    rw [hb]
    simp [build_and_persist, hex, hchunk]
  · intro henc
    rw [hb]
    simp [build_and_persist, extract_none_of_encrypted doc.pdf henc]

/-- C2, witness: an encrypted document against an empty cache yields failure
and the cache stays empty. -/
theorem getOrBuild_failure_creates_no_cache_entry_witness :
    get_or_build_index hasher0 embed0 [] docEnc = (none, [], ⟨1, 0, 0⟩) :=
  (getOrBuild_failure_creates_no_cache_entry hasher0 embed0 [] docEnc "h" rfl
    (fun entry h => by simp [cacheLookup] at h)).2.2 rfl

/-! ## Claim C9 -/

/-- C9: a failure of the query engine on one question is local — the loop
prints the error and the retry hint and continues on the very same engine
built from the very same index (the index value is immutable and no rebuild
path is reachable from the loop), and a subsequent question on which the
engine succeeds is answered, its answer heading the remaining output. -/
theorem query_failure_is_local
    (mkEngine : Index → String → Except String EngineResponse) (i : Index)
    (q1 q2 : String) (rest : List String) (m : String) (resp : EngineResponse)
    (h1ne : pyStrip q1 ≠ "") (h1x : isExitWord (pyLower (pyStrip q1)) = false)
    (h2ne : pyStrip q2 ≠ "") (h2x : isExitWord (pyLower (pyStrip q2)) = false)
    (herr : mkEngine i (pyStrip q1) = Except.error m)
    (hok : mkEngine i (pyStrip q2) = Except.ok resp) :
    query_index_interactive (some i) mkEngine (q1 :: q2 :: rest) =
      "--- Ready to Answer Questions ---" ::
      ("An error occurred during querying: " ++ m) ::
      "Please try a different query or type quit to exit." ::
      query_loop (mkEngine i) (q2 :: rest) ∧
    (query_loop (mkEngine i) (q2 :: rest)).head? = some resp.answer := by
  constructor
  · have hq : query_loop (mkEngine i) (q1 :: q2 :: rest) =
        ("An error occurred during querying: " ++ m) ::
        "Please try a different query or type quit to exit." ::
        query_loop (mkEngine i) (q2 :: rest) := by
      conv_lhs => rw [query_loop.eq_def]
      simp [h1ne, h1x, herr]
    show "--- Ready to Answer Questions ---" ::
      query_loop (mkEngine i) (q1 :: q2 :: rest) = _
    rw [hq]
  · conv_lhs => rw [query_loop.eq_def]
    cases rest with
    | nil => simp [h2ne, h2x, hok]
    | cons s rest2 => simp [h2ne, h2x, hok]

/-- C9, witness: the engine fails on `"bad"`, the loop reports it and
continues, and the following question `"ok"` is answered with `"ans"` from
the same index. -/
theorem query_failure_is_local_witness :
    query_index_interactive (some idx0) engine0 ["bad", "ok"] =
      "--- Ready to Answer Questions ---" ::
      ("An error occurred during querying: " ++ "boom") ::
      "Please try a different query or type quit to exit." ::
      query_loop (engine0 idx0) ["ok"] ∧
    (query_loop (engine0 idx0) ["ok"]).head? = some "ans" :=
  query_failure_is_local engine0 idx0 "bad" "ok" [] "boom" ⟨"ans", []⟩
    (by decide) (by decide) (by decide) (by decide) rfl rfl

end PdfQA
